/-
  Verification of the multi-agent concierge system (atlas finance research).

  Shallow embedding of:
  * the conversation state dict and its mutations
    (src/atlas/multiagents/finance_research.py, src/atlas/agents/finance/*.py),
  * the driver loop `run()` of finance_research.py as a step function over an
    explicit driver state, with the LLM/user environment supplied as oracle
    inputs per iteration,
  * the finance capability wrappers that have real logic
    (src/atlas/actions/finance/finance_tools.py: get_sentiment_analysis,
    get_historical_stock_prices, get_current_stock_price).

  Python floats are modelled as ℚ (the claims under proof are about exact
  arithmetic relationships, thresholds and counts); Python exceptions are
  modelled as `Except` with an error-kind type distinguishing ValueError,
  KeyError, TypeError and AttributeError.
-/
import Mathlib

namespace Atlas

/-! ### Conversation state (finance_research.py, get_initial_state) -/

/-- The `state` dict threaded through the driver loop and all agents.
Keys as created by `get_initial_state` in finance_research.py. -/
structure ConversationState where
  ticker : Option String
  company_research : Option String
  industry_research : Option String
  consumer_research : Option String
  current_agent : Option String
  just_finished : Bool
deriving DecidableEq, Repr

/-- `get_initial_state()` (finance_research.py lines 83-91): every field
`None`, `just_finished` `False`. -/
def get_initial_state : ConversationState :=
  { ticker := none
    company_research := none
    industry_research := none
    consumer_research := none
    current_agent := none
    just_finished := false }

/-! ### AgentName string values (finance_config.py) -/

/-- `AgentName.STOCK_LOOKUP.value` -/
def STOCK_LOOKUP : String := "stock_lookup"
/-- `AgentName.COMPANY_RESEARCH.value` -/
def COMPANY_RESEARCH : String := "company_research"
/-- `AgentName.INDUSTRY_RESEARCH.value` -/
def INDUSTRY_RESEARCH : String := "industry_research"
/-- `AgentName.CONSUMER_RESEARCH.value` -/
def CONSUMER_RESEARCH : String := "consumer_research"
/-- `AgentName.CONCIERGE.value` -/
def CONCIERGE : String := "concierge"

/-- The five agent names the driver's dispatch chain recognises
(finance_research.py lines 150-169). -/
def dispatchableNames : List String :=
  [STOCK_LOOKUP, COMPANY_RESEARCH, INDUSTRY_RESEARCH, CONSUMER_RESEARCH, CONCIERGE]

/-! ### Completion signals (the `done` tools of the four specialized agents)

Each `done` closure mutates the shared state dict in one call frame; the
embedding renders each as a single pure update function on
`ConversationState`, so the three writes of one `done` are one observable
update. -/

/-- `done(ticker)` in StockAgent._create_agent (stock_agent.py lines 35-40). -/
def StockAgent_done (ticker : String) (st : ConversationState) : ConversationState :=
  { st with ticker := some ticker, current_agent := none, just_finished := true }

/-- `CompanyResearchAgent.done(research_result)`
(company_research_agent.py lines 60-65). -/
def CompanyResearchAgent_done (research_result : String) (st : ConversationState) :
    ConversationState :=
  { st with company_research := some research_result
            current_agent := none
            just_finished := true }

/-- `done(research_result)` in IndustryResearchAgent._create_agent
(industry_research_agent.py lines 34-39). -/
def IndustryResearchAgent_done (research_result : String) (st : ConversationState) :
    ConversationState :=
  { st with industry_research := some research_result
            current_agent := none
            just_finished := true }

/-- `done(research_result)` in ConsumerResearchAgent._create_agent
(consumer_research_agent.py lines 34-39). -/
def ConsumerResearchAgent_done (research_result : String) (st : ConversationState) :
    ConversationState :=
  { st with consumer_research := some research_result
            current_agent := none
            just_finished := true }

/-- The four specialized agents that own a `done` completion signal. -/
inductive DoneAgent | stock | company | industry | consumer
deriving DecidableEq, Repr

/-- Dispatch of the completion signal to the owning agent's `done` body. -/
def doneUpdate : DoneAgent → String → ConversationState → ConversationState
  | .stock, payload, st => StockAgent_done payload st
  | .company, payload, st => CompanyResearchAgent_done payload st
  | .industry, payload, st => IndustryResearchAgent_done payload st
  | .consumer, payload, st => ConsumerResearchAgent_done payload st

/-- The state field owned (written) by each agent's completion signal:
`ticker` for the stock agent, the corresponding research blob for the
other three. -/
def ownedField : DoneAgent → ConversationState → Option String
  | .stock, st => st.ticker
  | .company, st => st.company_research
  | .industry, st => st.industry_research
  | .consumer, st => st.consumer_research

/-! ### Driver loop `run()` (finance_research.py lines 93-184)

One iteration of the `while True` loop is modelled as a pure step function.
The nondeterministic environment of one iteration — the quality-evaluation
agent's reply, the text `input()` would return, the orchestration agent's
reply, and whether the dispatched agent's LLM run invokes its `done` tool
(and with which payload) — is an oracle record `TurnInput`.  Chat history
contents never feed back into any branch condition of `run()`, so they are
not tracked. -/

/-- Python errors that the modelled code can raise. -/
inductive PyErr | valueError | keyError | typeError | attributeError
deriving DecidableEq, Repr

/-- The mutable loop variables of `run()` besides the conversation state:
`first_run`, `is_retry`, `num_tries` (lines 99-101). -/
structure DriverState where
  first_run : Bool
  is_retry : Bool
  num_tries : Nat
  state : ConversationState
deriving DecidableEq, Repr

/-- Driver state at entry of the loop (lines 94-101). -/
def initialDriverState : DriverState :=
  { first_run := true, is_retry := false, num_tries := 0, state := get_initial_state }

/-- Environment inputs consumed by one loop iteration. -/
structure TurnInput where
  /-- reply of the quality-evaluation agent (line 114-118), if consulted -/
  evalText : String
  /-- what `input()` returns (line 121 or 126), if consulted -/
  userText : String
  /-- `str(orchestration_response).strip()` (line 146), if consulted -/
  orchText : String
  /-- whether the dispatched agent's chat run calls its `done` tool, and the
  payload it passes (`none` = the tool is not called this turn) -/
  doneCall : Option String
deriving Repr

/-- Which branch of the message-selection `if/elif` chain (lines 105-130)
produced `user_msg_str` this iteration. -/
inductive MsgSource
  /-- line 107: synthetic "Hello" on the first run -/
  | greeting
  /-- line 110: synthetic "That's not right, try again. Pick one agent." -/
  | retryMsg
  /-- line 118: the quality evaluation's follow-up text, fed back as message -/
  | evalFollowUp
  /-- line 121: real user input read after a `no_further_task` evaluation -/
  | userInputEval
  /-- line 126: real user input read in the plain `else` branch -/
  | userInputFresh
deriving DecidableEq, Repr

/-- `"no_further_task" in user_msg_str` (line 120): substring test. -/
def containsNoFurtherTask (s : String) : Bool :=
  decide ("no_further_task".data <:+: s.data)

/-- Result of the message-selection phase. -/
structure SelectResult where
  source : MsgSource
  /-- the value of `user_msg_str` after the chain -/
  msg : String
  ds : DriverState
deriving Repr

/-- Lines 104-130 of `run()`: `num_tries += 1` followed by the
`if/elif/elif/else` chain choosing `user_msg_str` and mutating the loop
variables.  In the quality-evaluation branch, only the `no_further_task`
case clears `just_finished` and zeroes `num_tries`; the follow-up case
changes nothing but `num_tries`.  Only the plain `else` branch resets the
conversation state via `get_initial_state()`. -/
def selectMessage (ds : DriverState) (inp : TurnInput) : SelectResult :=
  -- `num_tries += 1` (line 104) happens before the chain; `ds.num_tries + 1`
  -- below is the incremented counter.
  if ds.first_run then
    { source := .greeting, msg := "Hello"
      ds := { ds with first_run := false, num_tries := ds.num_tries + 1 } }
  else if ds.is_retry then
    { source := .retryMsg, msg := "That's not right, try again. Pick one agent."
      ds := { ds with is_retry := false, num_tries := ds.num_tries + 1 } }
  else if ds.state.just_finished = true ∧ ds.num_tries + 1 < 5 then
    if containsNoFurtherTask inp.evalText then
      { source := .userInputEval, msg := inp.userText
        ds := { ds with state := { ds.state with just_finished := false }
                        num_tries := 0 } }
    else
      { source := .evalFollowUp, msg := inp.evalText
        ds := { ds with num_tries := ds.num_tries + 1 } }
  else
    { source := .userInputFresh, msg := inp.userText
      ds := { ds with state := get_initial_state, num_tries := 0 } }

/-- Truthiness of `state["current_agent"]` (line 135): `None` and the empty
string are falsy, every other string is truthy. -/
def pyTruthy : Option String → Bool
  | none => false
  | some s => decide (s ≠ "")

/-- Lines 134-146: `next_speaker` is the pinned `current_agent` when that is
truthy, else the orchestration agent's reply (an oracle value standing for
`orchestration_agent.chat(...)` on this state, history and query). -/
def resolveNextSpeaker (st : ConversationState) (orchDecision : String) : String :=
  if pyTruthy st.current_agent then st.current_agent.getD "" else orchDecision

/-- The Python classes behind the five dispatchable names. -/
inductive AgentClass | stock | company | industry | consumer | concierge
deriving DecidableEq, Repr

/-- The dispatch chain (lines 150-169): string comparison of `next_speaker`
against the five `AgentName` values, in source order; `none` is the final
`else` (line 170) that flags a retry. -/
def classOfName (next_speaker : String) : Option AgentClass :=
  if next_speaker = STOCK_LOOKUP then some .stock
  else if next_speaker = COMPANY_RESEARCH then some .company
  else if next_speaker = INDUSTRY_RESEARCH then some .industry
  else if next_speaker = CONSUMER_RESEARCH then some .consumer
  else if next_speaker = CONCIERGE then some .concierge
  else none

/-- State effect of `current_agent.chat(...)` (line 179).  The only tools
that write to the conversation state are the four `done` closures; the
concierge agent has no `done` tool (concierge_agent.py), so its chat never
mutates the state. -/
def agentChatEffect (cls : AgentClass) (doneCall : Option String)
    (st : ConversationState) : ConversationState :=
  match cls, doneCall with
  | .concierge, _ => st
  | _, none => st
  | .stock, some p => StockAgent_done p st
  | .company, some p => CompanyResearchAgent_done p st
  | .industry, some p => IndustryResearchAgent_done p st
  | .consumer, some p => ConsumerResearchAgent_done p st

/-- Whether the agent object built for a class carries a `memory` attribute.
StockAgent, CompanyResearchAgent, IndustryResearchAgent and
ConsumerResearchAgent all execute `self.memory = self.agent.memory` in
`__init__`; `ConciergeAgent.__init__` (concierge_agent.py lines 39-41) sets
only `self.state` and `self.agent`. -/
def hasMemoryAttr : AgentClass → Bool
  | .concierge => false
  | _ => true

/-- Outcome of one full loop iteration. -/
structure TurnResult where
  source : MsgSource
  /-- `some cls`: the dispatch chain selected an agent; `none`: the `else`
  branch (line 170-173) ran and the iteration ended in `continue` -/
  dispatched : Option AgentClass
  /-- driver state at the next loop entry, or the uncaught exception that
  aborts `run()` -/
  next : Except PyErr DriverState
deriving Repr

/-- Lines 134-184: next-speaker resolution, dispatch, agent chat, and the
history update `new_history = current_agent.memory.get_all()` (line 183),
which raises `AttributeError` when the dispatched agent object has no
`memory` attribute. -/
def dispatchPhase (ds : DriverState) (inp : TurnInput) (src : MsgSource) : TurnResult :=
  let next_speaker := resolveNextSpeaker ds.state inp.orchText
  match classOfName next_speaker with
  | none =>
      { source := src, dispatched := none
        next := .ok { ds with is_retry := true } }
  | some cls =>
      let st1 := { ds.state with current_agent := some next_speaker }
      let st2 := agentChatEffect cls inp.doneCall st1
      if hasMemoryAttr cls then
        { source := src, dispatched := some cls, next := .ok { ds with state := st2 } }
      else
        { source := src, dispatched := some cls, next := .error .attributeError }

/-- One full iteration of the `while True` loop of `run()`. -/
def driverStep (ds : DriverState) (inp : TurnInput) : TurnResult :=
  let r := selectMessage ds inp
  dispatchPhase r.ds inp r.source

/-- Iterated driver loop under an oracle stream: driver state after `n`
iterations (or the first uncaught exception). -/
def iterateDriver (ds : DriverState) (inps : Nat → TurnInput) : Nat → Except PyErr DriverState
  | 0 => .ok ds
  | n + 1 =>
    match iterateDriver ds inps n with
    | .ok d => (driverStep d (inps n)).next
    | .error e => .error e

/-- The message source of iteration `n` (0-based), when the loop is still
alive at its start. -/
def sourceAt (ds : DriverState) (inps : Nat → TurnInput) (n : Nat) : Option MsgSource :=
  match iterateDriver ds inps n with
  | .ok d => some (driverStep d (inps n)).source
  | .error _ => none

/-! ### Reachable-state invariant

`state["current_agent"]` is only ever written to `None` (initial state and
the `done` closures) or to one of the five dispatched names (lines 153,
157, 161, 165, 169 of finance_research.py), so in every state the program
can reach it is `None` or a non-empty dispatchable name. -/

/-- Well-formedness of the `current_agent` slot. -/
def StateWF (st : ConversationState) : Prop :=
  ∀ a, st.current_agent = some a → a ∈ dispatchableNames

/-! ### C6: result monotonicity -/

/-- The agent class whose chat hosts a given completion signal. -/
def ownerClass : DoneAgent → AgentClass
  | .stock => .stock
  | .company => .company
  | .industry => .industry
  | .consumer => .consumer

/-- Concrete state for the C6 witness: industry research already recorded. -/
def stC6 : ConversationState :=
  { get_initial_state with industry_research := some "semiconductor sector outlook" }

/-! ### C2: routing retries -/

/-- A turn environment whose orchestration reply is an unrecognized token. -/
def inpBad : TurnInput :=
  { evalText := "looks fine", userText := "fresh user question"
    orchText := "TransferToStockAgent", doneCall := none }

/-! ### C4: state reset on user input -/

/-- Driver state for the C4/C5 counterexamples: an agent just finished and
left a research result behind. -/
def dsC4 : DriverState :=
  { first_run := false, is_retry := false, num_tries := 0
    state := { get_initial_state with
                just_finished := true
                company_research := some "ACME research" } }

/-- Turn environment for C4: the quality evaluation answers
`no_further_task`, so the driver reads real user input (line 121). -/
def inpC4 : TurnInput :=
  { evalText := "no_further_task", userText := "now research the industry"
    orchText := INDUSTRY_RESEARCH, doneCall := none }

/-! ### C5: clearing `just_finished` after quality evaluation -/

/-- Driver state for the C5 counterexample: the stock agent just finished. -/
def dsC5 : DriverState :=
  { first_run := false, is_retry := false, num_tries := 0
    state := { get_initial_state with just_finished := true, ticker := some "CRM" } }

/-- Turn environment for C5: the quality evaluation returns a follow-up
task (no `no_further_task` sentinel), which is fed back as the next
message. -/
def inpC5 : TurnInput :=
  { evalText := "Also, what about the industry outlook?"
    userText := "unused", orchText := INDUSTRY_RESEARCH, doneCall := none }

/-! ### C10: concierge dispatch and the history update -/

/-- Turn environment for the C10 witness: orchestrator picks the concierge. -/
def inpC10 : TurnInput :=
  { evalText := "unused", userText := "hello", orchText := CONCIERGE, doneCall := none }

/-! ### Sentiment analysis (finance_tools.py, get_sentiment_analysis)

The NewsAPI article list and the TextBlob polarity scorer are external
collaborators: the article list is the function's effective input, and the
per-article polarity (TextBlob over `f"{title} {description}"`) is an
oracle `polarity : String → ℚ`.  Float arithmetic is modelled as exact
rational arithmetic (`0.05 = 1/20`). -/

/-- One NewsAPI article as consumed by the code (`title`, `description`). -/
structure Article where
  title : String
  description : String
deriving DecidableEq, Repr

/-- The result dict of `get_sentiment_analysis` (lines 299-305). -/
structure SentimentResult where
  overall_sentiment : ℚ
  positive_articles : Nat
  neutral_articles : Nat
  negative_articles : Nat
  article_count : Nat
deriving DecidableEq, Repr

/-- `get_sentiment_analysis` (finance_tools.py lines 260-310).  The inner
`raise ValueError("No news articles found ...")` on an empty list is caught
by the function's own `except Exception` clause and re-raised wrapped, so
the surfaced error message carries both prefixes. -/
def get_sentiment_analysis (polarity : String → ℚ) (query : String)
    (articles : List Article) : Except String SentimentResult :=
  if articles.isEmpty then
    .error ("Error performing sentiment analysis: No news articles found for the query: "
      ++ query)
  else
    let sentiments := articles.map fun a => polarity (a.title ++ " " ++ a.description)
    .ok { overall_sentiment := sentiments.sum / (sentiments.length : ℚ)
          positive_articles := sentiments.countP fun s => decide (1/20 < s)
          neutral_articles := sentiments.countP fun s => decide (-(1/20) ≤ s ∧ s ≤ 1/20)
          negative_articles := sentiments.countP fun s => decide (s < -(1/20))
          article_count := articles.length }

/-- Polarity oracle for the C7 witness, scoring the two scenario articles
of test_finance_tools.py (one positive, one negative). -/
def polC7 : String → ℚ := fun s =>
  if s = "Apple is great Apple stock is rising." then 2/5
  else if s = "Apple is bad Apple stock is falling." then -(7/20)
  else 0

/-- The two-article scenario list. -/
def articlesC7 : List Article :=
  [{ title := "Apple is great", description := "Apple stock is rising." },
   { title := "Apple is bad", description := "Apple stock is falling." }]

/-! ### Current stock price (finance_tools.py, get_current_stock_price)

`get_current_stock_price` does `float(data["Global Quote"]["05. price"])`
on the decoded provider JSON with no shape check and no try/except
(lines 106-110).  The JSON value is modelled structurally; Python
subscripting raises `KeyError` on a dict without the key and `TypeError`
on a non-dict, and `float(...)` raises `ValueError` on an unparseable
string and `TypeError` on a dict/list argument. -/

/-- Decoded JSON value (the subset relevant to the quote payload). -/
inductive PyVal
  | str (s : String)
  | num (q : ℚ)
  | dict (fields : List (String × PyVal))
  | list (xs : List PyVal)
  | none_
deriving Repr

/-- `value[key]` for a string key. -/
def pySubscript (v : PyVal) (key : String) : Except PyErr PyVal :=
  match v with
  | .dict fields =>
    match fields.lookup key with
    | some x => .ok x
    | none => .error .keyError
  | _ => .error .typeError

/-- `48 ≤ code ≤ 57`, i.e. the ASCII digits accepted by `float`. -/
def isDigitCh (c : Char) : Bool :=
  decide (48 ≤ c.toNat) && decide (c.toNat ≤ 57)

/-- Decimal value of a digit string (most significant first). -/
def natOfDigits (l : List Char) : Nat :=
  l.foldl (fun acc c => acc * 10 + (c.toNat - 48)) 0

/-- Python `float(s)` on plain decimal literals: optional sign, an integer
part and an optional fractional part (at least one digit overall).
Exponents, whitespace, underscores and `inf`/`nan` — which never occur in
the quote strings at issue — are not modelled and map to `none`
(`ValueError`). -/
def pyFloatOfString (s : String) : Option ℚ :=
  match s.data with
  | '-' :: u => (pyFloatCore u).map fun q => -q
  | '+' :: u => pyFloatCore u
  | u => pyFloatCore u
where
  pyFloatCore (u : List Char) : Option ℚ :=
    match u.dropWhile isDigitCh with
    | [] =>
      if u.isEmpty then none else some (natOfDigits u)
    | '.' :: frac =>
      if frac.all isDigitCh && (!(u.takeWhile isDigitCh).isEmpty || !frac.isEmpty) then
        some ((natOfDigits (u.takeWhile isDigitCh) : ℚ)
          + (natOfDigits frac : ℚ) / (10 : ℚ) ^ frac.length)
      else none
    | _ => none

/-- Python `float(x)` on a JSON-decoded value. -/
def pyFloat (v : PyVal) : Except PyErr ℚ :=
  match v with
  | .num q => .ok q
  | .str s =>
    match pyFloatOfString s with
    | some q => .ok q
    | none => .error .valueError
  | _ => .error .typeError

/-- `get_current_stock_price` (finance_tools.py lines 93-110) applied to
the decoded response body: `float(data["Global Quote"]["05. price"])`. -/
def get_current_stock_price (data : PyVal) : Except PyErr ℚ := do
  let quote ← pySubscript data "Global Quote"
  let price ← pySubscript quote "05. price"
  pyFloat price

/-- A well-formed GLOBAL_QUOTE response (shape used by
test_finance_tools.py, price "150.00"). -/
def wellFormedQuote : PyVal :=
  .dict [("Global Quote", .dict [("05. price", .str "150.00")])]

/-- An API-error response body: a JSON object without the "Global Quote"
key (Alpha Vantage returns e.g. {"Error Message": ...} for bad symbols;
the sibling endpoints check for it, this function does not). -/
def errorBodyQuote : PyVal :=
  .dict [("Error Message", .str "Invalid API call.")]

/-! ### Historical stock prices (finance_tools.py, get_historical_stock_prices)

The Alpha Vantage daily time series is the effective input: the dict
`data["Time Series (Daily)"]` abstracted to its item list (date-string
key, already-converted close price; the "Error Message" / missing-key
envelope checks of lines 134-138 precede everything modelled here and are
orthogonal to the claim).  `datetime.strptime(date, "%Y-%m-%d")` is
modelled by a parser of zero-padded ISO dates; a `datetime` value compares
chronologically, i.e. lexicographically on (year, month, day).  The final
`sorted(historical_prices, key=lambda x: x["date"])` is a stable sort on
the date *string*; it is embedded as `insertionSort` on the same key. -/

/-- A parsed `datetime` date. -/
structure Date where
  year : Nat
  month : Nat
  day : Nat
deriving DecidableEq, Repr

/-- Chronological (lexicographic) strict order on dates, as `datetime`
comparison behaves. -/
def Date.lt (a b : Date) : Prop :=
  a.year < b.year
  ∨ (a.year = b.year ∧ (a.month < b.month ∨ (a.month = b.month ∧ a.day < b.day)))

instance (a b : Date) : Decidable (Date.lt a b) := by
  unfold Date.lt
  infer_instance

/-- `a <= b` on `datetime` values. -/
def Date.le (a b : Date) : Prop := Date.lt a b ∨ a = b

instance (a b : Date) : Decidable (Date.le a b) := by
  unfold Date.le
  infer_instance

/-- `datetime.strptime(s, "%Y-%m-%d")`: four digit year, dash, two digit
month, dash, two digit day; anything else raises (`none`). -/
def parseDate (s : String) : Option Date :=
  match s.data with
  | [y1, y2, y3, y4, '-', m1, m2, '-', d1, d2] =>
    if isDigitCh y1 && isDigitCh y2 && isDigitCh y3 && isDigitCh y4
        && isDigitCh m1 && isDigitCh m2 && isDigitCh d1 && isDigitCh d2 then
      some { year := natOfDigits [y1, y2, y3, y4]
             month := natOfDigits [m1, m2]
             day := natOfDigits [d1, d2] }
    else none
  | _ => none

/-- One element of the returned list: the dict
`{"date": date_str, "price": float(values["4. close"])}`. -/
structure PriceEntry where
  date : String
  price : ℚ
deriving DecidableEq, Repr

/-- The sort key relation of `sorted(..., key=lambda x: x["date"])`:
code-point comparison of the date strings. -/
def entryDateStrLe (a b : PriceEntry) : Prop := a.date ≤ b.date

instance : DecidableRel entryDateStrLe := fun a b =>
  inferInstanceAs (Decidable (a.date ≤ b.date))

instance : IsTotal PriceEntry entryDateStrLe :=
  ⟨fun a b => le_total a.date b.date⟩

instance : IsTrans PriceEntry entryDateStrLe :=
  ⟨fun _ _ _ h1 h2 => le_trans h1 h2⟩

/-- The `for date_str, values in time_series.items()` loop (lines 146-152):
parse each key (raising on a malformed one), keep the in-range entries in
iteration order. -/
def collectPrices (sd ed : Date) : List (String × ℚ) → Except String (List PriceEntry)
  | [] => .ok []
  | p :: rest =>
    match parseDate p.1 with
    | none => .error "ValueError: time data does not match format %Y-%m-%d"
    | some d =>
      match collectPrices sd ed rest with
      | .error e => .error e
      | .ok tail =>
        if Date.le sd d ∧ Date.le d ed then
          .ok ({ date := p.1, price := p.2 } :: tail)
        else
          .ok tail

/-- `get_historical_stock_prices` (finance_tools.py lines 112-157) from the
extracted daily time series: parse the requested range, filter, fail on an
empty result, sort ascending by date string. -/
def get_historical_stock_prices (symbol : String) (time_series : List (String × ℚ))
    (start_date end_date : String) : Except String (List PriceEntry) :=
  match parseDate start_date, parseDate end_date with
  | some sd, some ed =>
    match collectPrices sd ed time_series with
    | .error e => .error e
    | .ok historical_prices =>
      if historical_prices.isEmpty then
        .error ("No historical prices found for " ++ symbol)
      else
        .ok (historical_prices.insertionSort entryDateStrLe)
  | _, _ => .error "ValueError: time data does not match format %Y-%m-%d"

/-- Specification-side description of "exactly the entries whose dates lie
within [startDate, endDate]", in input order. -/
def entriesInRange (sd ed : Date) (series : List (String × ℚ)) : List PriceEntry :=
  (series.filter fun p =>
      match parseDate p.1 with
      | some d => decide (Date.le sd d ∧ Date.le d ed)
      | none => false).map
    fun p => { date := p.1, price := p.2 }

/-- The parsed date of a well-formed date string (junk default otherwise). -/
def dateOf (s : String) : Date := (parseDate s).getD { year := 0, month := 0, day := 0 }

/-- "Ascending by date": comparison of the parsed dates of two entries. -/
def entryDateLe (a b : PriceEntry) : Prop := Date.le (dateOf a.date) (dateOf b.date)

/-- The two-point daily series of the test scenario
(test_finance_tools.py, test_get_historical_stock_prices). -/
def seriesC8 : List (String × ℚ) := [("2023-01-01", 150), ("2023-01-02", 155)]

/-! ## Theorems -/

theorem stateWF_initial : StateWF get_initial_state := by
  intro a ha
  simp [get_initial_state] at ha

theorem stateWF_doneUpdate (agent : DoneAgent) (payload : String)
    (st : ConversationState) : StateWF (doneUpdate agent payload st) := by
  intro a ha
  cases agent <;>
    simp [doneUpdate, StockAgent_done, CompanyResearchAgent_done,
      IndustryResearchAgent_done, ConsumerResearchAgent_done] at ha

theorem stateWF_agentChatEffect (cls : AgentClass) (dc : Option String)
    (st : ConversationState) (h : StateWF st) :
    StateWF (agentChatEffect cls dc st) := by
  cases cls <;> cases dc <;>
    first
      | exact h
      | · intro a ha
          simp [agentChatEffect, StockAgent_done, CompanyResearchAgent_done,
            IndustryResearchAgent_done, ConsumerResearchAgent_done] at ha

theorem stateWF_selectMessage (ds : DriverState) (inp : TurnInput)
    (h : StateWF ds.state) : StateWF (selectMessage ds inp).ds.state := by
  unfold selectMessage
  split_ifs <;>
    first
      | exact h
      | exact stateWF_initial

theorem mem_dispatchableNames_of_classOfName (s : String) (cls : AgentClass)
    (h : classOfName s = some cls) : s ∈ dispatchableNames := by
  unfold classOfName at h
  split_ifs at h <;> simp_all [dispatchableNames]

theorem stateWF_driverStep (ds : DriverState) (inp : TurnInput)
    (h : StateWF ds.state) (d : DriverState)
    (hok : (driverStep ds inp).next = .ok d) : StateWF d.state := by
  unfold driverStep dispatchPhase at hok
  have hsel : StateWF (selectMessage ds inp).ds.state := stateWF_selectMessage ds inp h
  set sel := selectMessage ds inp with hsel_def
  rcases hcls : classOfName (resolveNextSpeaker sel.ds.state inp.orchText) with _ | cls
  · simp only [hcls] at hok
    cases hok
    exact hsel
  · simp only [hcls] at hok
    split at hok
    · cases hok
      apply stateWF_agentChatEffect
      intro a ha
      have ha' : resolveNextSpeaker sel.ds.state inp.orchText = a := Option.some.inj ha
      subst ha'
      exact mem_dispatchableNames_of_classOfName _ cls hcls
    · cases hok

/-- **C1**: for every (reachable, i.e. well-formed) conversation state whose
`current_agent` is set to an agent name, the driver's next-speaker
resolution (finance_research.py lines 134-146) returns that name
unchanged, for every user query and chat history and regardless of what
the orchestration agent would answer — the orchestration decision path is
not consulted (the result does not depend on `orch`). -/
theorem C1_turn_affinity (st : ConversationState) (a : String)
    (hwf : StateWF st) (hset : st.current_agent = some a)
    (user_query : String) (chat_history : List String)
    (orch : String → List String → String) :
    resolveNextSpeaker st (orch user_query chat_history) = a := by
  have ha : a ∈ dispatchableNames := hwf a hset
  unfold resolveNextSpeaker
  rw [hset]
  simp only [dispatchableNames, STOCK_LOOKUP, COMPANY_RESEARCH, INDUSTRY_RESEARCH,
    CONSUMER_RESEARCH, CONCIERGE, List.mem_cons, List.not_mem_nil, or_false] at ha
  rcases ha with rfl | rfl | rfl | rfl | rfl <;> simp [pyTruthy]

/-- Witness for C1 at a concrete pinned state. -/
theorem C1_turn_affinity_witness :
    resolveNextSpeaker { get_initial_state with current_agent := some CONCIERGE }
      STOCK_LOOKUP = CONCIERGE :=
  C1_turn_affinity { get_initial_state with current_agent := some CONCIERGE } CONCIERGE
    (by intro a ha
        have h := Option.some.inj ha
        rw [← h]
        decide)
    rfl "what is the CRM price?" [] (fun _ _ => STOCK_LOOKUP)

/-- **C3**: each specialized agent's completion signal is a single update
(one `done` call frame, embedded as one pure function) after which the
agent's owned field holds the payload, `current_agent` is `None` and
`just_finished` is `True`; the router never sees a state with only part of
these writes applied, because `doneUpdate` is the only observable step. -/
theorem C3_completion_atomicity (agent : DoneAgent) (payload : String)
    (st : ConversationState) :
    (doneUpdate agent payload st).current_agent = none
    ∧ (doneUpdate agent payload st).just_finished = true
    ∧ ownedField agent (doneUpdate agent payload st) = some payload := by
  cases agent <;>
    simp [doneUpdate, ownedField, StockAgent_done, CompanyResearchAgent_done,
      IndustryResearchAgent_done, ConsumerResearchAgent_done]

/-- **C6**: a completion signal of any agent other than the owner leaves the
owner's field unchanged, and more generally a chat turn of any other agent
class (whose only state writes are its own `done` tool, if any) leaves it
unchanged — so a non-empty result field survives every other agent's
operations within one conversation without a reset. -/
theorem C6_result_monotonicity (owner other : DoneAgent) (cls : AgentClass)
    (payload : String) (dc : Option String) (st : ConversationState)
    (hother : other ≠ owner) (hcls : cls ≠ ownerClass owner) :
    ownedField owner (doneUpdate other payload st) = ownedField owner st
    ∧ ownedField owner (agentChatEffect cls dc st) = ownedField owner st := by
  constructor
  · cases owner <;> cases other <;>
      first
        | exact absurd rfl hother
        | simp [doneUpdate, ownedField, StockAgent_done, CompanyResearchAgent_done,
            IndustryResearchAgent_done, ConsumerResearchAgent_done]
  · cases owner <;> cases cls <;> cases dc <;>
      first
        | exact absurd rfl hcls
        | simp [agentChatEffect, ownedField, ownerClass, StockAgent_done,
            CompanyResearchAgent_done, IndustryResearchAgent_done,
            ConsumerResearchAgent_done]

/-- Witness for C6: the company agent's completion signal (and a company
chat turn that calls `done`) leave a recorded industry result untouched. -/
theorem C6_result_monotonicity_witness :
    ownedField .industry (doneUpdate .company "ACME 10-K summary" stC6)
      = ownedField .industry stC6
    ∧ ownedField .industry (agentChatEffect .company (some "ACME 10-K summary") stC6)
      = ownedField .industry stC6 :=
  C6_result_monotonicity .industry .company .company "ACME 10-K summary"
    (some "ACME 10-K summary") stC6 (by decide) (by decide)

/-- **C2 counterexample**: starting the loop fresh under an orchestration
backend that always answers an unrecognized token, iterations 0, 1 and 2
each end in an invalid decision (iteration 0 consumed the synthetic
greeting, 1 and 2 the synthetic retry message).  After the third
consecutive invalid decision the claim (cap 2) requires the driver to read
fresh user input on iteration 3 — but iteration 3 again synthesizes the
retry message and consults the orchestrator instead. -/
theorem C2_counterexample :
    sourceAt initialDriverState (fun _ => inpBad) 1 = some .retryMsg
    ∧ sourceAt initialDriverState (fun _ => inpBad) 2 = some .retryMsg
    ∧ sourceAt initialDriverState (fun _ => inpBad) 3 = some .retryMsg
    ∧ sourceAt initialDriverState (fun _ => inpBad) 3 ≠ some .userInputFresh
    ∧ sourceAt initialDriverState (fun _ => inpBad) 3 ≠ some .userInputEval := by
  decide

/-- **C2 (amended)**: the driver imposes no cap at all on consecutive
routing retries.  Once `is_retry` is set by an invalid orchestration
decision, every further iteration whose orchestration decision is again
invalid re-synthesizes the corrective retry message and sets `is_retry`
again; such a run never falls back to reading user input, for any number
of iterations (`num_tries < 5` guards only the quality-evaluation branch,
which a retry iteration never reaches). -/
theorem C2_routing_retry_unbounded (ds : DriverState) (inps : Nat → TurnInput)
    (hfr : ds.first_run = false) (hretry : ds.is_retry = true)
    (hca : ds.state.current_agent = none)
    (hinv : ∀ k, classOfName (inps k).orchText = none) :
    ∀ n, ∃ d, iterateDriver ds inps n = .ok d
      ∧ d.first_run = false ∧ d.is_retry = true ∧ d.state.current_agent = none
      ∧ (driverStep d (inps n)).source = .retryMsg := by
  have hstep : ∀ d : DriverState, ∀ k, d.first_run = false → d.is_retry = true →
      d.state.current_agent = none →
      (driverStep d (inps k)).source = .retryMsg
      ∧ (driverStep d (inps k)).next
          = .ok { d with is_retry := true, num_tries := d.num_tries + 1 } := by
    intro d k h1 h2 h3
    have hsel : selectMessage d (inps k)
        = { source := .retryMsg, msg := "That's not right, try again. Pick one agent."
            ds := { d with is_retry := false, num_tries := d.num_tries + 1 } } := by
      unfold selectMessage
      rw [h1, h2]
      simp
    unfold driverStep
    rw [hsel]
    unfold dispatchPhase resolveNextSpeaker
    simp only [h3, pyTruthy, Bool.false_eq_true, if_false, hinv k]
    exact ⟨trivial, trivial⟩
  intro n
  induction n with
  | zero =>
    refine ⟨ds, rfl, hfr, hretry, hca, (hstep ds 0 hfr hretry hca).1⟩
  | succ n ih =>
    obtain ⟨d, hit, h1, h2, h3, _⟩ := ih
    obtain ⟨hsrc, hnext⟩ := hstep d n h1 h2 h3
    refine ⟨{ d with is_retry := true, num_tries := d.num_tries + 1 }, ?_, h1, rfl, h3, ?_⟩
    · unfold iterateDriver
      rw [hit]
      exact hnext
    · exact (hstep { d with is_retry := true, num_tries := d.num_tries + 1 }
        (n + 1) h1 rfl h3).1

/-- The orchestration reply in `inpBad` matches none of the five names. -/
theorem inpBad_invalid : classOfName inpBad.orchText = none := by decide

/-- Witness for the amended C2 at a concrete retrying driver state. -/
theorem C2_routing_retry_unbounded_witness :
    ∃ d, iterateDriver
        { first_run := false, is_retry := true, num_tries := 1, state := get_initial_state }
        (fun _ => inpBad) 2 = .ok d
      ∧ d.first_run = false ∧ d.is_retry = true ∧ d.state.current_agent = none
      ∧ (driverStep d inpBad).source = .retryMsg :=
  C2_routing_retry_unbounded
    { first_run := false, is_retry := true, num_tries := 1, state := get_initial_state }
    (fun _ => inpBad) rfl rfl rfl (fun _ => inpBad_invalid) 2

/-- **C4 counterexample**: an iteration that reads real user input after a
`no_further_task` evaluation does not reset the conversation state — the
previously recorded `company_research` is still present when the very next
dispatch runs. -/
theorem C4_counterexample :
    (driverStep dsC4 inpC4).source = .userInputEval
    ∧ (selectMessage dsC4 inpC4).ds.state ≠ get_initial_state
    ∧ (selectMessage dsC4 inpC4).ds.state.company_research = some "ACME research"
    ∧ ((driverStep dsC4 inpC4).next.toOption.map fun d => d.state.company_research)
        = some (some "ACME research") := by
  decide

/-- **C4 (amended)**: the reset to `get_initial_state` happens exactly in
the plain `else` input branch (line 126-130) — i.e. when the iteration is
not the first run, not a retry, and the quality-evaluation branch does not
fire.  The other branch that reads real user input (after a
`no_further_task` evaluation, line 121) keeps the whole state except for
clearing `just_finished`. -/
theorem C4_reset_only_in_plain_input_branch (ds : DriverState) (inp : TurnInput)
    (hfr : ds.first_run = false) (hretry : ds.is_retry = false) :
    (¬(ds.state.just_finished = true ∧ ds.num_tries + 1 < 5) →
        (selectMessage ds inp).source = .userInputFresh
        ∧ (selectMessage ds inp).ds.state = get_initial_state)
    ∧ (ds.state.just_finished = true ∧ ds.num_tries + 1 < 5
        ∧ containsNoFurtherTask inp.evalText = true →
        (selectMessage ds inp).source = .userInputEval
        ∧ (selectMessage ds inp).ds.state = { ds.state with just_finished := false }) := by
  unfold selectMessage
  rw [hfr, hretry]
  constructor
  · intro hneg
    simp only [Bool.false_eq_true, if_false, if_neg hneg]
    exact ⟨by trivial, by trivial⟩
  · rintro ⟨hjf, hn, heval⟩
    simp only [Bool.false_eq_true, if_false, if_pos (And.intro hjf hn), heval, if_true]
    exact ⟨by trivial, by trivial⟩


/-- Witness for the amended C4 on the concrete post-completion state. -/
theorem C4_reset_only_in_plain_input_branch_witness :
    (selectMessage dsC4 inpC4).source = .userInputEval
    ∧ (selectMessage dsC4 inpC4).ds.state = { dsC4.state with just_finished := false } :=
  (C4_reset_only_in_plain_input_branch dsC4 inpC4 rfl rfl).2 ⟨rfl, by decide, by decide⟩

/-- **C5 counterexample**: when the quality evaluation returns a follow-up
task, `just_finished` is *not* cleared — the follow-up is dispatched and
the next loop iteration still sees `just_finished = true`. -/
theorem C5_counterexample :
    (driverStep dsC5 inpC5).source = .evalFollowUp
    ∧ ((driverStep dsC5 inpC5).next.toOption.map fun d => d.state.just_finished)
        = some true := by
  decide

/-- **C5 (amended)**: after a quality-evaluation step, `just_finished` is
cleared only in the `no_further_task` case (line 122); when the evaluation
returns a follow-up task, the flag keeps its value `true` into the
dispatch of the follow-up message. -/
theorem C5_flag_cleared_only_on_no_further_task (ds : DriverState) (inp : TurnInput)
    (hfr : ds.first_run = false) (hretry : ds.is_retry = false)
    (hjf : ds.state.just_finished = true) (hn : ds.num_tries + 1 < 5) :
    (containsNoFurtherTask inp.evalText = true →
        (selectMessage ds inp).source = .userInputEval
        ∧ (selectMessage ds inp).ds.state.just_finished = false)
    ∧ (containsNoFurtherTask inp.evalText = false →
        (selectMessage ds inp).source = .evalFollowUp
        ∧ (selectMessage ds inp).ds.state.just_finished = true) := by
  unfold selectMessage
  rw [hfr, hretry]
  simp only [Bool.false_eq_true, if_false, if_pos (And.intro hjf hn)]
  constructor
  · intro heval
    rw [heval]
    exact ⟨by trivial, by trivial⟩
  · intro heval
    rw [heval]
    exact ⟨by trivial, by simp [hjf]⟩

/-- Witness for the amended C5 on the concrete follow-up environment. -/
theorem C5_flag_cleared_only_on_no_further_task_witness :
    (selectMessage dsC5 inpC5).source = .evalFollowUp
    ∧ (selectMessage dsC5 inpC5).ds.state.just_finished = true :=
  (C5_flag_cleared_only_on_no_further_task dsC5 inpC5 rfl rfl rfl (by decide)).2 (by decide)

/-- **C10**: whenever the dispatch chain selects the concierge agent, the
turn cannot complete: the agent's chat succeeds, but the history update
`current_agent.memory.get_all()` (line 183) raises `AttributeError`
because `ConciergeAgent.__init__` never defines `memory`. -/
theorem C10_concierge_dispatch_attribute_error (ds : DriverState) (inp : TurnInput)
    (h : (driverStep ds inp).dispatched = some .concierge) :
    (driverStep ds inp).next = .error .attributeError := by
  unfold driverStep dispatchPhase at h ⊢
  rcases hcls : classOfName
      (resolveNextSpeaker (selectMessage ds inp).ds.state inp.orchText) with _ | cls
  · simp only [hcls] at h
    exact Option.noConfusion h
  · cases hmem : hasMemoryAttr cls with
    | false => simp [hcls, hmem]
    | true =>
      have hcc : cls = .concierge := by
        simpa [hcls, hmem] using h
      rw [hcc] at hmem
      exact absurd hmem (by decide)

/-- Witness for C10: a fresh turn routed to the concierge aborts `run()`
with `AttributeError`. -/
theorem C10_concierge_dispatch_attribute_error_witness :
    (driverStep { first_run := false, is_retry := false, num_tries := 0
                  state := get_initial_state } inpC10).next
      = .error .attributeError :=
  C10_concierge_dispatch_attribute_error
    { first_run := false, is_retry := false, num_tries := 0, state := get_initial_state }
    inpC10 (by decide)

/-- The three sentiment buckets (strictly above `0.05`, within `±0.05`,
strictly below `−0.05`) partition ℚ, so the three counts always sum to the
list length. -/
theorem countP_sentiment_partition (l : List ℚ) :
    (l.countP fun s => decide (1/20 < s))
      + (l.countP fun s => decide (-(1/20) ≤ s ∧ s ≤ 1/20))
      + (l.countP fun s => decide (s < -(1/20))) = l.length := by
  induction l with
  | nil => rfl
  | cons a l ih =>
    simp only [List.countP_cons, List.length_cons, decide_eq_true_eq]
    by_cases h1 : (1/20 : ℚ) < a
    · have h2 : ¬ a < -(1/20) := by linarith
      have h3 : ¬ (-(1/20) ≤ a ∧ a ≤ 1/20) := by
        rintro ⟨_, hb⟩
        linarith
      rw [if_pos h1, if_neg h3, if_neg h2]
      omega
    · by_cases h2 : a < -(1/20)
      · have h3 : ¬ (-(1/20) ≤ a ∧ a ≤ 1/20) := by
          rintro ⟨hb, _⟩
          linarith
        rw [if_neg h1, if_neg h3, if_pos h2]
        omega
      · have h3 : -(1/20) ≤ a ∧ a ≤ 1/20 := ⟨by linarith, by linarith⟩
        rw [if_neg h1, if_pos h3, if_neg h2]
        omega

/-- **C7**: on a non-empty fetched article list, `get_sentiment_analysis`
returns a record whose `overall_sentiment` is the arithmetic mean of the
per-article polarity scores, whose `article_count` is the number of
articles, and whose positive/neutral/negative counts partition the
articles; on an empty article list it raises (a wrapped) `ValueError`. -/
theorem C7_sentiment_postcondition (polarity : String → ℚ) (query : String)
    (articles : List Article) :
    (articles = [] →
      get_sentiment_analysis polarity query articles
        = .error ("Error performing sentiment analysis: No news articles found for the query: "
            ++ query))
    ∧ (articles ≠ [] →
      ∃ r, get_sentiment_analysis polarity query articles = .ok r
        ∧ r.article_count = articles.length
        ∧ r.overall_sentiment
            = (articles.map fun a => polarity (a.title ++ " " ++ a.description)).sum
              / (articles.length : ℚ)
        ∧ r.positive_articles + r.neutral_articles + r.negative_articles
            = r.article_count) := by
  constructor
  · intro h
    subst h
    rfl
  · intro h
    have hne : articles.isEmpty = false := by
      cases articles with
      | nil => exact absurd rfl h
      | cons a l => rfl
    unfold get_sentiment_analysis
    rw [hne]
    simp only [Bool.false_eq_true, if_false]
    refine ⟨_, rfl, rfl, ?_, ?_⟩
    · simp [List.length_map]
    · simpa [List.length_map] using
        countP_sentiment_partition
          (articles.map fun a => polarity (a.title ++ " " ++ a.description))

/-- Witness for C7 on the two-article scenario. -/
theorem C7_sentiment_postcondition_witness :
    articlesC7 ≠ [] ∧
    ∃ r, get_sentiment_analysis polC7 "Apple" articlesC7 = .ok r
      ∧ r.article_count = articlesC7.length
      ∧ r.overall_sentiment
          = (articlesC7.map fun a => polC7 (a.title ++ " " ++ a.description)).sum
            / (articlesC7.length : ℚ)
      ∧ r.positive_articles + r.neutral_articles + r.negative_articles
          = r.article_count :=
  ⟨by decide, (C7_sentiment_postcondition polC7 "Apple" articlesC7).2 (by decide)⟩

/-- **C9**: on a malformed response that lacks the expected quote
structure, `get_current_stock_price` raises `KeyError` — an error kind
that is neither the documented `ValueError` (the docstring's only listed
exception, the spec's ProviderError) nor a success; the documented
`ValueError` occurs only on an unparseable price string, and a well-formed
response yields the quoted price. -/
theorem C9_current_price_error_kind :
    get_current_stock_price errorBodyQuote = .error .keyError
    ∧ (Except.error .keyError : Except PyErr ℚ) ≠ .error .valueError
    ∧ get_current_stock_price (.dict []) = .error .keyError
    ∧ get_current_stock_price (.dict [("Global Quote",
        .dict [("05. price", .str "None")])]) = .error .valueError
    ∧ get_current_stock_price wellFormedQuote = .ok 150 := by
  have hne : (Except.error .keyError : Except PyErr ℚ) ≠ .error .valueError := by
    intro h
    injection h with h2
    cases h2
  refine ⟨rfl, hne, rfl, rfl, ?_⟩
  show Except.ok ((150 : ℚ) + (0 : ℚ) / (10 : ℚ) ^ 2) = Except.ok 150
  norm_num

/-! #### String order vs. date order

Python compares the date strings by code points and the parsed dates
chronologically; on zero-padded ISO dates the two orders agree.  The
following lemmas establish this bridge. -/

theorem isDigitCh_bounds {c : Char} (h : isDigitCh c = true) :
    48 ≤ c.toNat ∧ c.toNat ≤ 57 := by
  simpa [isDigitCh] using h

theorem char_eq_iff_toNat {a b : Char} : a = b ↔ a.toNat = b.toNat := by
  constructor
  · intro h
    rw [h]
  · intro h
    apply le_antisymm
    · show a.toNat ≤ b.toNat
      omega
    · show b.toNat ≤ a.toNat
      omega

theorem char_lt_iff_toNat {a b : Char} : a < b ↔ a.toNat < b.toNat := Iff.rfl

theorem lex_cons_iff {α : Type} {r : α → α → Prop} {a b : α} {as bs : List α} :
    List.Lex r (a :: as) (b :: bs) ↔ r a b ∨ (a = b ∧ List.Lex r as bs) := by
  constructor
  · intro h
    cases h with
    | cons h => exact Or.inr ⟨rfl, h⟩
    | rel h => exact Or.inl h
  · intro h
    rcases h with h | ⟨rfl, h⟩
    · exact List.Lex.rel h
    · exact List.Lex.cons h

theorem digit_lex_bridge
    {y1 y2 y3 y4 m1 m2 d1 d2 Y1 Y2 Y3 Y4 M1 M2 D1 D2 : Char}
    (ha : ([y1, y2, y3, y4, m1, m2, d1, d2].all isDigitCh) = true)
    (hb : ([Y1, Y2, Y3, Y4, M1, M2, D1, D2].all isDigitCh) = true) :
    List.Lex (· < ·) [y1, y2, y3, y4, '-', m1, m2, '-', d1, d2]
        [Y1, Y2, Y3, Y4, '-', M1, M2, '-', D1, D2]
    ↔ Date.lt
        { year := natOfDigits [y1, y2, y3, y4], month := natOfDigits [m1, m2]
          day := natOfDigits [d1, d2] }
        { year := natOfDigits [Y1, Y2, Y3, Y4], month := natOfDigits [M1, M2]
          day := natOfDigits [D1, D2] } := by
  simp only [List.all_cons, List.all_nil, Bool.and_eq_true, and_true] at ha hb
  obtain ⟨hy1, hy2, hy3, hy4, hm1, hm2, hd1, hd2⟩ := ha
  obtain ⟨hY1, hY2, hY3, hY4, hM1, hM2, hD1, hD2⟩ := hb
  have b1 := isDigitCh_bounds hy1
  have b2 := isDigitCh_bounds hy2
  have b3 := isDigitCh_bounds hy3
  have b4 := isDigitCh_bounds hy4
  have b5 := isDigitCh_bounds hm1
  have b6 := isDigitCh_bounds hm2
  have b7 := isDigitCh_bounds hd1
  have b8 := isDigitCh_bounds hd2
  have c1 := isDigitCh_bounds hY1
  have c2 := isDigitCh_bounds hY2
  have c3 := isDigitCh_bounds hY3
  have c4 := isDigitCh_bounds hY4
  have c5 := isDigitCh_bounds hM1
  have c6 := isDigitCh_bounds hM2
  have c7 := isDigitCh_bounds hD1
  have c8 := isDigitCh_bounds hD2
  simp only [lex_cons_iff, List.Lex.not_nil_right, lt_self_iff_false, false_or,
    eq_self_iff_true, true_and, and_false, or_false, char_lt_iff_toNat,
    char_eq_iff_toNat, Date.lt, natOfDigits, List.foldl]
  omega

theorem parseDate_shape {s : String} {d : Date} (h : parseDate s = some d) :
    ∃ y1 y2 y3 y4 m1 m2 d1 d2 : Char,
      s.data = [y1, y2, y3, y4, '-', m1, m2, '-', d1, d2]
      ∧ ([y1, y2, y3, y4, m1, m2, d1, d2].all isDigitCh) = true
      ∧ d = { year := natOfDigits [y1, y2, y3, y4], month := natOfDigits [m1, m2]
              day := natOfDigits [d1, d2] } := by
  unfold parseDate at h
  split at h
  next y1 y2 y3 y4 m1 m2 d1 d2 heq =>
    split_ifs at h with hguard
    refine ⟨y1, y2, y3, y4, m1, m2, d1, d2, heq, ?_, (Option.some.inj h).symm⟩
    simp only [Bool.and_eq_true] at hguard
    simp only [List.all_cons, List.all_nil, Bool.and_eq_true, and_true]
    tauto
  next =>
    exact Option.noConfusion h

theorem parseDate_string_lt {s t : String} {ds dt : Date}
    (hs : parseDate s = some ds) (ht : parseDate t = some dt) :
    s < t ↔ Date.lt ds dt := by
  obtain ⟨y1, y2, y3, y4, m1, m2, d1, d2, hsd, hsa, rfl⟩ := parseDate_shape hs
  obtain ⟨Y1, Y2, Y3, Y4, M1, M2, D1, D2, htd, hta, rfl⟩ := parseDate_shape ht
  have h1 : s < t ↔ List.Lex (· < ·) s.data t.data := String.lt_iff_toList_lt
  rw [h1, hsd, htd]
  exact digit_lex_bridge hsa hta

theorem date_not_lt_iff {a b : Date} : ¬ Date.lt b a ↔ Date.le a b := by
  cases a with
  | mk ay am ad =>
    cases b with
    | mk by2 bm bd =>
      simp only [Date.lt, Date.le, Date.mk.injEq]
      omega

theorem parseDate_string_le {s t : String} {ds dt : Date}
    (hs : parseDate s = some ds) (ht : parseDate t = some dt) :
    s ≤ t ↔ Date.le ds dt := by
  rw [← not_lt, parseDate_string_lt ht hs, date_not_lt_iff]

/-- On a time series whose keys all parse, the collection loop succeeds and
produces exactly the in-range entries in input order. -/
theorem collectPrices_eq (sd ed : Date) (series : List (String × ℚ))
    (hwf : ∀ p ∈ series, (parseDate p.1).isSome) :
    collectPrices sd ed series = .ok (entriesInRange sd ed series) := by
  induction series with
  | nil => rfl
  | cons p rest ih =>
    obtain ⟨d, hd⟩ := Option.isSome_iff_exists.mp (hwf p (List.mem_cons_self p rest))
    have ih' := ih fun q hq => hwf q (List.mem_cons_of_mem p hq)
    simp only [collectPrices, hd, ih', entriesInRange, List.filter_cons, decide_eq_true_eq]
    by_cases hin : Date.le sd d ∧ Date.le d ed
    · rw [if_pos hin, if_pos hin]
      simp
    · rw [if_neg hin, if_neg hin]

/-- Every entry produced by the range filter carries a parseable date
string. -/
theorem entriesInRange_mem_parse {sd ed : Date} {series : List (String × ℚ)}
    (hwf : ∀ p ∈ series, (parseDate p.1).isSome) {e : PriceEntry}
    (he : e ∈ entriesInRange sd ed series) : (parseDate e.date).isSome := by
  unfold entriesInRange at he
  obtain ⟨p, hp, hpe⟩ := List.mem_map.mp he
  have : e.date = p.1 := by rw [← hpe]
  rw [this]
  exact hwf p (List.mem_of_mem_filter hp)

/-- **C8**: for every symbol, requested date range and provider time series
(whose keys are well-formed dates), `get_historical_stock_prices` returns
exactly the entries whose dates lie within `[start_date, end_date]` —
sorted ascending by date — and fails with the NotFound-style `ValueError`
when the intersection of available data and the requested range is
empty. -/
theorem C8_historical_prices_postcondition (symbol start_date end_date : String)
    (sd ed : Date) (series : List (String × ℚ))
    (hs : parseDate start_date = some sd) (he : parseDate end_date = some ed)
    (hwf : ∀ p ∈ series, (parseDate p.1).isSome) :
    (entriesInRange sd ed series = [] →
      get_historical_stock_prices symbol series start_date end_date
        = .error ("No historical prices found for " ++ symbol))
    ∧ (entriesInRange sd ed series ≠ [] →
      ∃ l, get_historical_stock_prices symbol series start_date end_date = .ok l
        ∧ l.Perm (entriesInRange sd ed series)
        ∧ List.Pairwise entryDateLe l) := by
  unfold get_historical_stock_prices
  simp only [hs, he, collectPrices_eq sd ed series hwf]
  constructor
  · intro h0
    rw [h0]
    rfl
  · intro hne
    have hni : (entriesInRange sd ed series).isEmpty = false := by
      cases hc : entriesInRange sd ed series with
      | nil => exact absurd hc hne
      | cons a l => rfl
    rw [hni]
    simp only [Bool.false_eq_true, if_false]
    refine ⟨_, rfl, List.perm_insertionSort entryDateStrLe _, ?_⟩
    have hsorted : List.Pairwise entryDateStrLe
        ((entriesInRange sd ed series).insertionSort entryDateStrLe) :=
      List.sorted_insertionSort entryDateStrLe (entriesInRange sd ed series)
    refine List.Pairwise.imp_of_mem ?_ hsorted
    intro a b hma hmb hr
    have hma' : a ∈ entriesInRange sd ed series :=
      (List.perm_insertionSort entryDateStrLe _).mem_iff.mp hma
    have hmb' : b ∈ entriesInRange sd ed series :=
      (List.perm_insertionSort entryDateStrLe _).mem_iff.mp hmb
    obtain ⟨da, hda⟩ := Option.isSome_iff_exists.mp (entriesInRange_mem_parse hwf hma')
    obtain ⟨db, hdb⟩ := Option.isSome_iff_exists.mp (entriesInRange_mem_parse hwf hmb')
    unfold entryDateLe dateOf
    rw [hda, hdb]
    exact (parseDate_string_le hda hdb).mp hr

/-- Witness for C8 on the scenario range 2023-01-01..2023-01-02. -/
theorem C8_historical_prices_postcondition_witness :
    entriesInRange { year := 2023, month := 1, day := 1 }
        { year := 2023, month := 1, day := 2 } seriesC8 ≠ []
    ∧ ∃ l, get_historical_stock_prices "AAPL" seriesC8 "2023-01-01" "2023-01-02" = .ok l
        ∧ l.Perm (entriesInRange { year := 2023, month := 1, day := 1 }
            { year := 2023, month := 1, day := 2 } seriesC8)
        ∧ List.Pairwise entryDateLe l :=
  ⟨by decide,
    (C8_historical_prices_postcondition "AAPL" "2023-01-01" "2023-01-02"
      { year := 2023, month := 1, day := 1 } { year := 2023, month := 1, day := 2 }
      seriesC8 (by decide) (by decide) (by decide)).2 (by decide)⟩

end Atlas
